import Mathlib

/-!
Verification of the write-set conversion layer
(`aptos-move/aptos-vm/src/move_vm_ext/write_op_converter.rs`).

The converter's logic is embedded from the source file.  Carrier types that
the source imports from sibling crates (`StateValueMetadata`, `WriteOp`,
`GroupWrite`, the aggregator `serialize` function) are not part of the
provided sources; they are modelled from the specification's data model
(spec §3, §4.3) and marked as such.

Machine integers: `u64`/`u128` values are embedded as `Nat` with explicit
bounds.  The source's `checked_add`/`checked_sub` are embedded as
`Option`-valued operations.  The source also performs two *unchecked* `u64`
additions (`old_size + tag_size` and `data.len() as u64 + tag_size`); their
overflow behaviour is decided by the build profile, which is outside the
provided sources — see `u64_plain_add` below for how that is modelled.
-/

namespace AptosWriteOp

/-- Raw byte payload (`Bytes` in the source); only its identity and length
are relevant to the converter. -/
abbrev Bytes := List Nat

/-- One past the largest `u64` value. -/
def U64_LIMIT : Nat := 2 ^ 64

/-- Opaque identifier of a physical storage location (`StateKey`). -/
abbrev StateKey := Nat

/-- Opaque identifier of a logical tag within a resource group
(`StructTag`); its BCS-serialized size is supplied externally. -/
abbrev StructTag := Nat

/-- Modelled from the spec: `SlotMetadata` — "a deposit amount (fee pre-paid
for slot existence) and a creation timestamp" (spec §3).  The concrete
`StateValueMetadata` struct lives outside the provided sources. -/
structure StateValueMetadata where
  deposit : Nat
  creation_time_usecs : Nat

deriving instance DecidableEq for StateValueMetadata

/-- Modelled from the spec: `StateValueMetadata::new(deposit, &current_time)`
builds a metadata record from a deposit and the on-chain clock reading. -/
def StateValueMetadata.new (deposit : Nat) (current_time_microseconds : Nat) :
    StateValueMetadata :=
  ⟨deposit, current_time_microseconds⟩

/-- `MoveStorageOp` (`move_core_types::effects::Op`): the abstract storage
effect, tagged over `\x7bNew(T), Modify(T), Delete\x7d`. -/
inductive MoveStorageOp (T : Type) where
  | New (t : T)
  | Modify (t : T)
  | Delete

deriving instance DecidableEq for MoveStorageOp

/-- Modelled from the spec: `ConcreteWriteOp` — "tagged variant over
\x7bCreation(bytes), CreationWithMetadata(bytes, SlotMetadata),
Modification(bytes), ModificationWithMetadata(bytes, SlotMetadata),
Deletion, DeletionWithMetadata(SlotMetadata)\x7d" (spec §3).  The concrete
`WriteOp` enum lives outside the provided sources. -/
inductive WriteOp where
  | Creation (data : Bytes)
  | CreationWithMetadata (data : Bytes) (metadata : StateValueMetadata)
  | Modification (data : Bytes)
  | ModificationWithMetadata (data : Bytes) (metadata : StateValueMetadata)
  | Deletion
  | DeletionWithMetadata (metadata : StateValueMetadata)

deriving instance DecidableEq for WriteOp

/-- The status codes used by the converter's error paths. -/
inductive StatusCode where
  | SPECULATIVE_EXECUTION_ABORT_ERROR
  | STORAGE_ERROR
  | UNKNOWN_INVARIANT_VIOLATION_ERROR
  | VALUE_SERIALIZATION_ERROR

deriving instance DecidableEq for StatusCode

/-- `VMStatus::error(code, msg)`: a typed failure status with an optional
message. -/
structure VMStatus where
  status_code : StatusCode
  message : Option String

deriving instance DecidableEq for VMStatus

/-- Constructor mirroring `VMStatus::error` / `err_msg`. -/
def VMStatus.error (code : StatusCode) (msg : Option String) : VMStatus :=
  ⟨code, msg⟩

/-- Error returned by `convert` when the metadata lookup itself failed
(write_op_converter.rs lines 206-211). -/
def storage_read_failed_status : VMStatus :=
  VMStatus.error .STORAGE_ERROR (some "Storage read failed when converting change set.")

/-- Error returned by `convert` for `Modify`/`Delete` against a slot the
resolver reports as non-existent (lines 214-220). -/
def updating_non_existent_status : VMStatus :=
  VMStatus.error .SPECULATIVE_EXECUTION_ABORT_ERROR
    (some "When converting write op: updating non-existent value.")

/-- Error returned by `convert` for `New` against a slot the resolver
reports as existing (lines 221-227). -/
def recreating_existing_status : VMStatus :=
  VMStatus.error .SPECULATIVE_EXECUTION_ABORT_ERROR
    (some "When converting write op: Recreating existing value.")

/-- The `group_size_arithmetics_error` closure (lines 116-121). -/
def group_size_arithmetics_error : VMStatus :=
  VMStatus.error .SPECULATIVE_EXECUTION_ABORT_ERROR
    (some "Group size underflow while applying updates")

/-- The `tag_serialization_error` closure (lines 122-127). -/
def tag_serialization_error_status : VMStatus :=
  VMStatus.error .VALUE_SERIALIZATION_ERROR (some "Tag serialization error")

/-- Error used for failed `resource_group_size` / `resource_size_in_group`
resolver queries (lines 103-108, 145-150). -/
def group_size_query_error : VMStatus :=
  VMStatus.error .UNKNOWN_INVARIANT_VIOLATION_ERROR
    (some "Error querying resource group size")

/-- Error used by `convert_aggregator_modification` when its metadata lookup
fails (line 267): a speculative abort with no message. -/
def aggregator_lookup_failed_status : VMStatus :=
  VMStatus.error .SPECULATIVE_EXECUTION_ABORT_ERROR none

/-- The resolver capability consumed by the converter (`AptosMoveResolver`),
as a record of pure query functions.  Lookup failures (`anyhow::Error`,
`PartialVMError`) carry no information the converter inspects, so the error
type is `Unit`.  `fetch_current_time_microseconds` models
`CurrentTimeMicroseconds::fetch_config(remote)` (line 62): the on-chain
clock, absent when not configured. -/
structure AptosMoveResolver where
  get_resource_state_value_metadata :
    StateKey → Except Unit (Option (Option StateValueMetadata))
  get_module_state_value_metadata :
    StateKey → Except Unit (Option (Option StateValueMetadata))
  get_aggregator_v1_state_value_metadata :
    StateKey → Except Unit (Option (Option StateValueMetadata))
  resource_group_size : StateKey → Except Unit Nat
  resource_size_in_group : StateKey → StructTag → Except Unit Nat
  fetch_current_time_microseconds : Option Nat

/-- `WriteOpConverter`: the per-transaction conversion session (lines
24-27). -/
structure WriteOpConverter where
  remote : AptosMoveResolver
  new_slot_metadata : Option StateValueMetadata

/-- `WriteOpConverter::new` (lines 56-73): the template metadata for newly
created slots is set only when the metadata subsystem is enabled and the
on-chain clock is configured; its deposit is a zero placeholder and its
timestamp is the clock reading. -/
def WriteOpConverter.new (remote : AptosMoveResolver)
    (is_storage_slot_metadata_enabled : Bool) : WriteOpConverter :=
  let new_slot_metadata : Option StateValueMetadata :=
    if is_storage_slot_metadata_enabled then
      match remote.fetch_current_time_microseconds with
      | some current_time => some (StateValueMetadata.new 0 current_time)
      | none => none
    else
      none
  ⟨remote, new_slot_metadata⟩

/-- `convert` (lines 197-257): the metadata state machine mapping one
(existing-metadata lookup result, abstract effect) pair to one concrete
write op.  The payload type pairs bytes with an optional layout hint `L`
(`BytesWithResourceLayout`), which the state machine threads but never
inspects. -/
def convert {L : Type} (c : WriteOpConverter)
    (state_value_metadata_result : Except Unit (Option (Option StateValueMetadata)))
    (move_storage_op : MoveStorageOp (Bytes × Option L))
    (legacy_creation_as_modification : Bool) : Except VMStatus WriteOp :=
  match state_value_metadata_result with
  | .error _ => .error storage_read_failed_status
  | .ok maybe_existing_metadata =>
    match maybe_existing_metadata, move_storage_op with
    | none, .Modify _ => .error updating_non_existent_status
    | none, .Delete => .error updating_non_existent_status
    | some _, .New _ => .error recreating_existing_status
    | none, .New (data, _) =>
      match c.new_slot_metadata with
      | none =>
        if legacy_creation_as_modification then
          .ok (.Modification data)
        else
          .ok (.Creation data)
      | some metadata => .ok (.CreationWithMetadata data metadata)
    | some none, .Modify (data, _) => .ok (.Modification data)
    | some (some metadata), .Modify (data, _) =>
      .ok (.ModificationWithMetadata data metadata)
    | some none, .Delete => .ok .Deletion
    | some (some metadata), .Delete => .ok (.DeletionWithMetadata metadata)

/-- Modelled from the spec: the aggregator `serialize` function
(`aptos_aggregator::delta_change_set::serialize`, outside the provided
sources) — "serializes the integer with a fixed-width encoding" (spec §4.3):
the 16-byte little-endian encoding of a `u128`. -/
def serialize (value : Nat) : Bytes :=
  (List.range 16).map (fun i => value / 256 ^ i % 256)

/-- `convert_aggregator_modification` (lines 259-288). -/
def WriteOpConverter.convert_aggregator_modification (c : WriteOpConverter)
    (state_key : StateKey) (value : Nat) : Except VMStatus WriteOp :=
  match c.remote.get_aggregator_v1_state_value_metadata state_key with
  | .error _ => .error aggregator_lookup_failed_status
  | .ok maybe_existing_metadata =>
    let data := serialize value
    match maybe_existing_metadata with
    | none =>
      match c.new_slot_metadata with
      | none => .ok (WriteOp.Modification data)
      | some metadata => .ok (WriteOp.CreationWithMetadata data metadata)
    | some none => .ok (WriteOp.Modification data)
    | some (some metadata) => .ok (WriteOp.ModificationWithMetadata data metadata)

/-- `convert_module` (lines 29-52, via the `convert_impl!` macro): wraps the
bare-bytes effect with an absent layout hint and runs `convert` against the
module metadata lookup. -/
def WriteOpConverter.convert_module {L : Type} (c : WriteOpConverter)
    (state_key : StateKey) (move_storage_op : MoveStorageOp Bytes)
    (legacy_creation_as_modification : Bool) : Except VMStatus WriteOp :=
  let op : MoveStorageOp (Bytes × Option L) :=
    match move_storage_op with
    | .New data => .New (data, none)
    | .Modify data => .Modify (data, none)
    | .Delete => .Delete
  convert c (c.remote.get_module_state_value_metadata state_key) op
    legacy_creation_as_modification

/-- `convert_resource` (lines 75-91): runs `convert` against the resource
metadata lookup and returns the layout hint alongside the write op. -/
def WriteOpConverter.convert_resource {L : Type} (c : WriteOpConverter)
    (state_key : StateKey) (move_storage_op : MoveStorageOp (Bytes × Option L))
    (legacy_creation_as_modification : Bool) :
    Except VMStatus (WriteOp × Option L) :=
  match convert c (c.remote.get_resource_state_value_metadata state_key)
      move_storage_op legacy_creation_as_modification with
  | .error e => .error e
  | .ok result =>
    match move_storage_op with
    | .New (_, type_layout) => .ok (result, type_layout)
    | .Modify (_, type_layout) => .ok (result, type_layout)
    | .Delete => .ok (result, none)

/-- Checked `u64` addition (`u64::checked_add`): `none` on overflow. -/
def u64_checked_add (a b : Nat) : Option Nat :=
  if a + b < U64_LIMIT then some (a + b) else none

/-- Checked `u64` subtraction (`u64::checked_sub`): `none` on underflow. -/
def u64_checked_sub (a b : Nat) : Option Nat :=
  if b ≤ a then some (a - b) else none

/-- Modelled from the spec: the *unchecked* `u64` additions the source
performs at `old_size + tag_size` (line 151) and
`data.len() as u64 + tag_size` (lines 163, 169).  The build profile that
decides Rust's plain-`+` overflow behaviour is outside the provided
sources; the spec (§3, §8) requires that overflow never silently wrap, so
plain addition is modelled as a panic (`none`) on overflow rather than a
wraparound.  Callers propagate this `none` as a panic, not as a returned
error. -/
def u64_plain_add (a b : Nat) : Option Nat :=
  if a + b < U64_LIMIT then some (a + b) else none

/-- Modelled from the spec: `GroupWrite` (spec §3) — "a single
`ConcreteWriteOp` representing the slot's own existence/size …, the
post-conversion aggregate size as an integer, and a mapping from logical
tag → (legacy-shaped `ConcreteWriteOp`, optional type-layout hint)".  The
concrete `GroupWrite` struct lives outside the provided sources; the
replacement of the synthetic op's byte payload by the serialized size
(performed inside `GroupWrite::new`) does not alter the op's kind or
metadata and is not modelled — the post size is carried as the integer
field. -/
structure GroupWrite (L : Type) where
  metadata_op : WriteOp
  post_group_size : Nat
  inner_ops : List (StructTag × WriteOp × Option L)

deriving instance DecidableEq for GroupWrite

/-- The body of the `try_fold` closure of `convert_resource_group_v1`
(lines 131-175), for one `(tag, current_op)` entry at running size
`cur_size`.  `ser` stands for `bcs::serialized_size` on tags.  Outcomes:
`none` models a Rust panic (unchecked addition overflow); `some (.error e)`
a returned error; `some (.ok (new_size, legacy_op))` the updated running
size together with the recorded legacy-shaped per-tag op. -/
def group_change_step {L : Type} (remote : AptosMoveResolver)
    (ser : StructTag → Except Unit Nat) (state_key : StateKey)
    (cur_size : Nat) (tag : StructTag)
    (current_op : MoveStorageOp (Bytes × Option L)) :
    Option (Except VMStatus (Nat × (WriteOp × Option L))) :=
  match ser tag with
  | .error _ => some (.error tag_serialization_error_status)
  | .ok tag_size =>
    let after_sub : Option (Except VMStatus Nat) :=
      match current_op with
      | .New _ => some (.ok cur_size)
      | _ =>
        match remote.resource_size_in_group state_key tag with
        | .error _ => some (.error group_size_query_error)
        | .ok prev_size =>
          match u64_plain_add prev_size tag_size with
          | none => none
          | some old_size =>
            match u64_checked_sub cur_size old_size with
            | none => some (.error group_size_arithmetics_error)
            | some reduced => some (.ok reduced)
    match after_sub with
    | none => none
    | some (.error e) => some (.error e)
    | some (.ok cur_size2) =>
      match current_op with
      | .Delete => some (.ok (cur_size2, (WriteOp.Deletion, none)))
      | .Modify (new_data, maybe_layout) =>
        match u64_plain_add new_data.length tag_size with
        | none => none
        | some delta =>
          match u64_checked_add cur_size2 delta with
          | none => some (.error group_size_arithmetics_error)
          | some new_size =>
            some (.ok (new_size, (WriteOp.Modification new_data, maybe_layout)))
      | .New (data, maybe_layout) =>
        match u64_plain_add data.length tag_size with
        | none => none
        | some delta =>
          match u64_checked_add cur_size2 delta with
          | none => some (.error group_size_arithmetics_error)
          | some new_size =>
            some (.ok (new_size, (WriteOp.Creation data, maybe_layout)))

/-- The `try_fold` of `convert_resource_group_v1` (lines 128-176) together
with the `inner_ops` accumulation: processes the batch entries in order
(the Rust `BTreeMap` iterates its entries in ascending tag order; the list
models that ordered entry sequence), threading the running group size. -/
def convert_group_changes {L : Type} (remote : AptosMoveResolver)
    (ser : StructTag → Except Unit Nat) (state_key : StateKey) :
    List (StructTag × MoveStorageOp (Bytes × Option L)) → Nat →
    Option (Except VMStatus (Nat × List (StructTag × WriteOp × Option L)))
  | [], cur_size => some (.ok (cur_size, []))
  | (tag, current_op) :: rest, cur_size =>
    match group_change_step remote ser state_key cur_size tag current_op with
    | none => none
    | some (.error e) => some (.error e)
    | some (.ok (new_size, legacy_op)) =>
      match convert_group_changes remote ser state_key rest new_size with
      | none => none
      | some (.error e) => some (.error e)
      | some (.ok (post_size, ops)) =>
        some (.ok (post_size, (tag, legacy_op) :: ops))

/-- `convert_resource_group_v1` (lines 93-195).  The metadata lookup is
performed first and its result is consumed only by the final `convert`
call; the group-size query failure is surfaced immediately.  After the
fold, the synthetic slot-level effect kind is decided from the size
trajectory and fed through `convert` (with the compatibility switch off)
to obtain the metadata-annotated slot-level op.  `none` models a Rust
panic inside the fold. -/
def WriteOpConverter.convert_resource_group_v1 {L : Type}
    (c : WriteOpConverter) (ser : StructTag → Except Unit Nat)
    (state_key : StateKey)
    (group_changes : List (StructTag × MoveStorageOp (Bytes × Option L))) :
    Option (Except VMStatus (GroupWrite L)) :=
  let state_value_metadata_result :=
    c.remote.get_resource_state_value_metadata state_key
  match c.remote.resource_group_size state_key with
  | .error _ => some (.error group_size_query_error)
  | .ok pre_group_size =>
    match convert_group_changes c.remote ser state_key group_changes
        pre_group_size with
    | none => none
    | some (.error e) => some (.error e)
    | some (.ok (post_group_size, inner_ops)) =>
      let metadata_op : MoveStorageOp (Bytes × Option L) :=
        if post_group_size = 0 then .Delete
        else if pre_group_size = 0 then .New ([], none)
        else .Modify ([], none)
      match convert c state_value_metadata_result metadata_op false with
      | .error e => some (.error e)
      | .ok w => some (.ok ⟨w, post_group_size, inner_ops⟩)

/-- Spec-side formula (claim C1): the subtraction term one batch entry
contributes to the aggregate size — `old payload size + tag size` for
touched non-`New` tags, nothing for `New`.  `tsz` and `osz` are the
serialized tag sizes and previously recorded payload sizes. -/
def spec_sub_term {L : Type} (tsz osz : StructTag → Nat) :
    StructTag × MoveStorageOp (Bytes × Option L) → Int
  | (_, .New _) => 0
  | (tag, .Modify _) => (osz tag : Int) + (tsz tag : Int)
  | (tag, .Delete) => (osz tag : Int) + (tsz tag : Int)

/-- Spec-side formula (claim C1): the addition term one batch entry
contributes — `new payload length + tag size` for `New`/`Modify`, nothing
for `Delete`. -/
def spec_add_term {L : Type} (tsz : StructTag → Nat) :
    StructTag × MoveStorageOp (Bytes × Option L) → Int
  | (_, .Delete) => 0
  | (tag, .Modify (d, _)) => (d.length : Int) + (tsz tag : Int)
  | (tag, .New (d, _)) => (d.length : Int) + (tsz tag : Int)

/-- Hypothesis for the amended claim C3: the two unchecked `u64` additions
the source performs for one batch entry stay below `2^64` — `old payload
size + tag size` for touched non-`New` tags, `new payload length + tag
size` for `New`/`Modify`. -/
def no_component_overflow {L : Type} (tsz osz : StructTag → Nat) :
    StructTag × MoveStorageOp (Bytes × Option L) → Prop
  | (tag, .Delete) => osz tag + tsz tag < U64_LIMIT
  | (tag, .Modify (d, _)) =>
      osz tag + tsz tag < U64_LIMIT ∧ d.length + tsz tag < U64_LIMIT
  | (tag, .New (d, _)) => d.length + tsz tag < U64_LIMIT

/-- A resolver whose answers are constant in the key/tag, used to
instantiate theorems at concrete inputs. -/
def test_resolver (md amd : Except Unit (Option (Option StateValueMetadata)))
    (size prev : Except Unit Nat) (clock : Option Nat) : AptosMoveResolver :=
  ⟨fun _ => md, fun _ => md, fun _ => amd, fun _ => size, fun _ _ => prev, clock⟩

/-- Input exercising the source's unchecked addition
`old_size + tag_size`: the resolver reports a previously recorded payload
size of `2^64 - 1` for the touched tag, whose serialized tag size is 1, so
the unchecked `u64` sum overflows. -/
def overflow_case_converter : WriteOpConverter :=
  ⟨test_resolver (.ok (some none)) (.ok none) (.ok 5) (.ok (U64_LIMIT - 1))
    none, none⟩

/-- The batch for the overflow input: a single `Delete` of tag 0. -/
def overflow_case_changes : List (StructTag × MoveStorageOp (Bytes × Option Unit)) :=
  [(0, .Delete)]

section FoldLemmas

variable {L : Type}

/-- One step of the group-size fold is exact: when it succeeds, the new
running size is the old one minus the entry's subtraction term plus its
addition term, as integers. -/
theorem group_change_step_ok_size (remote : AptosMoveResolver)
    (ser : StructTag → Except Unit Nat) (state_key : StateKey)
    (cur_size : Nat) (tag : StructTag)
    (op : MoveStorageOp (Bytes × Option L)) (tsz osz : StructTag → Nat)
    (hser : ser tag = .ok (tsz tag))
    (hosz : remote.resource_size_in_group state_key tag = .ok (osz tag))
    (new_size : Nat) (lop : WriteOp × Option L)
    (h : group_change_step remote ser state_key cur_size tag op
        = some (.ok (new_size, lop))) :
    (new_size : Int) = (cur_size : Int) - spec_sub_term tsz osz (tag, op)
      + spec_add_term tsz (tag, op) := by
  cases op with
  | New t =>
    obtain ⟨data, layout⟩ := t
    by_cases h1 : data.length + tsz tag < U64_LIMIT
    · by_cases h2 : cur_size + (data.length + tsz tag) < U64_LIMIT
      · simp only [group_change_step, hser, u64_plain_add, u64_checked_add,
          if_pos h1, if_pos h2, Option.some.injEq, Except.ok.injEq,
          Prod.mk.injEq] at h
        obtain ⟨hx, -⟩ := h
        simp only [spec_sub_term, spec_add_term]
        omega
      · simp [group_change_step, hser, u64_plain_add, u64_checked_add,
          if_pos h1, if_neg h2] at h
    · simp [group_change_step, hser, u64_plain_add, if_neg h1] at h
  | Modify t =>
    obtain ⟨data, layout⟩ := t
    by_cases h1 : osz tag + tsz tag < U64_LIMIT
    · by_cases h2 : osz tag + tsz tag ≤ cur_size
      · by_cases h3 : data.length + tsz tag < U64_LIMIT
        · by_cases h4 :
            cur_size - (osz tag + tsz tag) + (data.length + tsz tag) < U64_LIMIT
          · simp only [group_change_step, hser, hosz, u64_plain_add,
              u64_checked_sub, u64_checked_add, if_pos h1, if_pos h2,
              if_pos h3, if_pos h4, Option.some.injEq, Except.ok.injEq,
              Prod.mk.injEq] at h
            obtain ⟨hx, -⟩ := h
            simp only [spec_sub_term, spec_add_term]
            omega
          · simp [group_change_step, hser, hosz, u64_plain_add,
              u64_checked_sub, u64_checked_add, if_pos h1, if_pos h2,
              if_pos h3, if_neg h4] at h
        · simp [group_change_step, hser, hosz, u64_plain_add,
            u64_checked_sub, if_pos h1, if_pos h2, if_neg h3] at h
      · simp [group_change_step, hser, hosz, u64_plain_add, u64_checked_sub,
          if_pos h1, if_neg h2] at h
    · simp [group_change_step, hser, hosz, u64_plain_add, if_neg h1] at h
  | Delete =>
    by_cases h1 : osz tag + tsz tag < U64_LIMIT
    · by_cases h2 : osz tag + tsz tag ≤ cur_size
      · simp only [group_change_step, hser, hosz, u64_plain_add,
          u64_checked_sub, if_pos h1, if_pos h2, Option.some.injEq,
          Except.ok.injEq, Prod.mk.injEq] at h
        obtain ⟨hx, -⟩ := h
        simp only [spec_sub_term, spec_add_term]
        omega
      · simp [group_change_step, hser, hosz, u64_plain_add, u64_checked_sub,
          if_pos h1, if_neg h2] at h
    · simp [group_change_step, hser, hosz, u64_plain_add, if_neg h1] at h

/-- The group-size fold is exact: when it succeeds, the final size is the
starting size minus the sum of subtraction terms plus the sum of addition
terms, as integers. -/
theorem convert_group_changes_ok_size (remote : AptosMoveResolver)
    (ser : StructTag → Except Unit Nat) (state_key : StateKey)
    (tsz osz : StructTag → Nat) :
    ∀ (changes : List (StructTag × MoveStorageOp (Bytes × Option L)))
      (cur_size post_size : Nat)
      (ops : List (StructTag × WriteOp × Option L)),
      (∀ e ∈ changes, ser e.1 = .ok (tsz e.1)) →
      (∀ e ∈ changes, remote.resource_size_in_group state_key e.1
        = .ok (osz e.1)) →
      convert_group_changes remote ser state_key changes cur_size
        = some (.ok (post_size, ops)) →
      (post_size : Int) = (cur_size : Int)
        - (changes.map (spec_sub_term tsz osz)).sum
        + (changes.map (spec_add_term tsz)).sum := by
  intro changes
  induction changes with
  | nil =>
    intro cur_size post_size ops _ _ h
    simp only [convert_group_changes, Option.some.injEq, Except.ok.injEq,
      Prod.mk.injEq] at h
    obtain ⟨hx, -⟩ := h
    simp [hx]
  | cons head rest ih =>
    obtain ⟨tag, op⟩ := head
    intro cur_size post_size ops hser hosz h
    simp only [convert_group_changes] at h
    cases hstep : group_change_step remote ser state_key cur_size tag op with
    | none => simp [hstep] at h
    | some r =>
      simp only [hstep] at h
      cases r with
      | error e => simp at h
      | ok p =>
        obtain ⟨new_size, lop⟩ := p
        cases hrec : convert_group_changes remote ser state_key rest new_size
          with
        | none => simp [hrec] at h
        | some r2 =>
          simp only [hrec] at h
          cases r2 with
          | error e => simp at h
          | ok q =>
            obtain ⟨post2, ops2⟩ := q
            simp only [Option.some.injEq, Except.ok.injEq,
              Prod.mk.injEq] at h
            obtain ⟨hpost, -⟩ := h
            subst hpost
            have hstep_size := group_change_step_ok_size remote ser state_key
              cur_size tag op tsz osz
              (hser (tag, op) (List.mem_cons_self _ _))
              (hosz (tag, op) (List.mem_cons_self _ _)) new_size lop hstep
            have hrec_size := ih new_size post2 ops2
              (fun e he => hser e (List.mem_cons_of_mem _ he))
              (fun e he => hosz e (List.mem_cons_of_mem _ he)) hrec
            simp only [List.map_cons, List.sum_cons]
            rw [hrec_size, hstep_size]
            ring

/-- One step of the group-size fold never panics and fails only with the
speculative-abort arithmetic error, provided the resolver queries succeed
and the entry's unchecked component sums fit in `u64`. -/
theorem group_change_step_classified (remote : AptosMoveResolver)
    (ser : StructTag → Except Unit Nat) (state_key : StateKey)
    (cur_size : Nat) (tag : StructTag)
    (op : MoveStorageOp (Bytes × Option L)) (tsz osz : StructTag → Nat)
    (hser : ser tag = .ok (tsz tag))
    (hosz : remote.resource_size_in_group state_key tag = .ok (osz tag))
    (hcomp : no_component_overflow tsz osz (tag, op)) :
    group_change_step remote ser state_key cur_size tag op
        = some (.error group_size_arithmetics_error)
      ∨ ∃ new_size lop,
        group_change_step remote ser state_key cur_size tag op
          = some (.ok (new_size, lop)) := by
  cases op with
  | New t =>
    obtain ⟨data, layout⟩ := t
    have h1 : data.length + tsz tag < U64_LIMIT := hcomp
    by_cases h2 : cur_size + (data.length + tsz tag) < U64_LIMIT
    · right
      refine ⟨cur_size + (data.length + tsz tag),
        (WriteOp.Creation data, layout), ?_⟩
      simp [group_change_step, hser, u64_plain_add, u64_checked_add,
        if_pos h1, if_pos h2]
    · left
      simp [group_change_step, hser, u64_plain_add, u64_checked_add,
        if_pos h1, if_neg h2]
  | Modify t =>
    obtain ⟨data, layout⟩ := t
    have hcomp2 :
        osz tag + tsz tag < U64_LIMIT ∧ data.length + tsz tag < U64_LIMIT :=
      hcomp
    obtain ⟨h1, h3⟩ := hcomp2
    by_cases h2 : osz tag + tsz tag ≤ cur_size
    · by_cases h4 :
        cur_size - (osz tag + tsz tag) + (data.length + tsz tag) < U64_LIMIT
      · right
        refine ⟨cur_size - (osz tag + tsz tag) + (data.length + tsz tag),
          (WriteOp.Modification data, layout), ?_⟩
        simp [group_change_step, hser, hosz, u64_plain_add, u64_checked_sub,
          u64_checked_add, if_pos h1, if_pos h2, if_pos h3, if_pos h4]
      · left
        simp [group_change_step, hser, hosz, u64_plain_add, u64_checked_sub,
          u64_checked_add, if_pos h1, if_pos h2, if_pos h3, if_neg h4]
    · left
      simp [group_change_step, hser, hosz, u64_plain_add, u64_checked_sub,
        if_pos h1, if_neg h2]
  | Delete =>
    have h1 : osz tag + tsz tag < U64_LIMIT := hcomp
    by_cases h2 : osz tag + tsz tag ≤ cur_size
    · right
      refine ⟨cur_size - (osz tag + tsz tag), (WriteOp.Deletion, none), ?_⟩
      simp [group_change_step, hser, hosz, u64_plain_add, u64_checked_sub,
        if_pos h1, if_pos h2]
    · left
      simp [group_change_step, hser, hosz, u64_plain_add, u64_checked_sub,
        if_pos h1, if_neg h2]

/-- The group-size fold never panics and fails only with the
speculative-abort arithmetic error, provided every entry's resolver
queries succeed and its unchecked component sums fit in `u64`. -/
theorem convert_group_changes_classified (remote : AptosMoveResolver)
    (ser : StructTag → Except Unit Nat) (state_key : StateKey)
    (tsz osz : StructTag → Nat) :
    ∀ (changes : List (StructTag × MoveStorageOp (Bytes × Option L)))
      (cur_size : Nat),
      (∀ e ∈ changes, ser e.1 = .ok (tsz e.1)) →
      (∀ e ∈ changes, remote.resource_size_in_group state_key e.1
        = .ok (osz e.1)) →
      (∀ e ∈ changes, no_component_overflow tsz osz e) →
      convert_group_changes remote ser state_key changes cur_size
          = some (.error group_size_arithmetics_error)
        ∨ ∃ post_size ops,
          convert_group_changes remote ser state_key changes cur_size
            = some (.ok (post_size, ops)) := by
  intro changes
  induction changes with
  | nil =>
    intro cur_size _ _ _
    right
    exact ⟨cur_size, [], rfl⟩
  | cons head rest ih =>
    obtain ⟨tag, op⟩ := head
    intro cur_size hser hosz hcomp
    rcases group_change_step_classified remote ser state_key cur_size tag op
        tsz osz (hser (tag, op) (List.mem_cons_self _ _))
        (hosz (tag, op) (List.mem_cons_self _ _))
        (hcomp (tag, op) (List.mem_cons_self _ _)) with hstep | ⟨n, lop, hstep⟩
    · left
      simp [convert_group_changes, hstep]
    · rcases ih n (fun e he => hser e (List.mem_cons_of_mem _ he))
        (fun e he => hosz e (List.mem_cons_of_mem _ he))
        (fun e he => hcomp e (List.mem_cons_of_mem _ he)) with hrec |
        ⟨post, ops, hrec⟩
      · left
        simp [convert_group_changes, hstep, hrec]
      · right
        exact ⟨post, (tag, lop) :: ops, by
          simp [convert_group_changes, hstep, hrec]⟩

/-- When the metadata lookup itself succeeded, every error `convert` can
return is a speculative-abort (the two state-machine contradictions). -/
theorem convert_ok_lookup_error_spec (c : WriteOpConverter)
    (md : Option (Option StateValueMetadata))
    (op : MoveStorageOp (Bytes × Option L)) (lcm : Bool) (e : VMStatus)
    (h : convert c (.ok md) op lcm = .error e) :
    e.status_code = .SPECULATIVE_EXECUTION_ABORT_ERROR := by
  cases md with
  | none =>
    cases op with
    | New t =>
      obtain ⟨data, layout⟩ := t
      simp only [convert] at h
      cases hn : c.new_slot_metadata with
      | none =>
        rw [hn] at h
        by_cases hl : lcm
        · simp [if_pos hl] at h
        · simp [if_neg hl] at h
      | some m => rw [hn] at h; simp at h
    | Modify t =>
      simp only [convert, Except.error.injEq] at h
      subst h
      rfl
    | Delete =>
      simp only [convert, Except.error.injEq] at h
      subst h
      rfl
  | some existing =>
    cases existing with
    | none =>
      cases op with
      | New t =>
        simp only [convert, Except.error.injEq] at h
        subst h
        rfl
      | Modify t => obtain ⟨data, layout⟩ := t; simp [convert] at h
      | Delete => simp [convert] at h
    | some m =>
      cases op with
      | New t =>
        simp only [convert, Except.error.injEq] at h
        subst h
        rfl
      | Modify t => obtain ⟨data, layout⟩ := t; simp [convert] at h
      | Delete => simp [convert] at h

end FoldLemmas

/-- Claim C2: for every effect and every successful metadata lookup,
converting `Modify` or `Delete` against a slot reported as non-existent
returns the speculative-abort "updating non-existent value" error, and
converting `New` against a slot reported as existing returns the
speculative-abort "recreating existing value" error; no write op is
produced in either case. -/
theorem claim_C2_contradictions_abort (c : WriteOpConverter) (L : Type)
    (x : Bytes × Option L) (m : Option StateValueMetadata) (lcm : Bool) :
    convert c (.ok none) (.Modify x) lcm = .error updating_non_existent_status
    ∧ convert c (.ok none) (MoveStorageOp.Delete : MoveStorageOp (Bytes × Option L))
        lcm = .error updating_non_existent_status
    ∧ convert c (.ok (some m)) (.New x) lcm = .error recreating_existing_status
    ∧ updating_non_existent_status.status_code
        = .SPECULATIVE_EXECUTION_ABORT_ERROR
    ∧ recreating_existing_status.status_code
        = .SPECULATIVE_EXECUTION_ABORT_ERROR := by
  refine ⟨rfl, rfl, ?_, rfl, rfl⟩
  cases m <;> rfl

/-- Claim C5: existing metadata `some m` is inherited unchanged by
`Modify` (→ `ModificationWithMetadata m`) and `Delete`
(→ `DeletionWithMetadata m`) conversions, for every conversion session
(whether or not the metadata subsystem is enabled); an existing slot
without metadata yields plain `Modification` / `Deletion`. -/
theorem claim_C5_metadata_inherited (c : WriteOpConverter) (L : Type)
    (data : Bytes) (lay : Option L) (m : StateValueMetadata) (lcm : Bool) :
    convert c (.ok (some (some m))) (.Modify (data, lay)) lcm
        = .ok (.ModificationWithMetadata data m)
    ∧ convert c (.ok (some (some m)))
        (MoveStorageOp.Delete : MoveStorageOp (Bytes × Option L)) lcm
        = .ok (.DeletionWithMetadata m)
    ∧ convert c (.ok (some none)) (.Modify (data, lay)) lcm
        = .ok (.Modification data)
    ∧ convert c (.ok (some none))
        (MoveStorageOp.Delete : MoveStorageOp (Bytes × Option L)) lcm
        = .ok .Deletion :=
  ⟨rfl, rfl, rfl, rfl⟩

/-- Claim C6: converting `New(data)` against a non-existent slot yields
`Creation(data)` with the metadata subsystem disabled and the
legacy-creation-as-modification switch off, `Modification(data)` with the
switch on, and `CreationWithMetadata(data, m)` with the subsystem enabled,
where `m` is the session template: deposit zero, timestamp from the
on-chain clock read at session construction. -/
theorem claim_C6_new_slot_creation (r : AptosMoveResolver) (L : Type)
    (data : Bytes) (lay : Option L) (t : Nat) :
    convert (WriteOpConverter.new r false) (.ok none) (.New (data, lay)) false
        = .ok (.Creation data)
    ∧ convert (WriteOpConverter.new r false) (.ok none) (.New (data, lay)) true
        = .ok (.Modification data)
    ∧ (r.fetch_current_time_microseconds = some t →
        ∀ lcm : Bool,
          convert (WriteOpConverter.new r true) (.ok none) (.New (data, lay))
            lcm = .ok (.CreationWithMetadata data (StateValueMetadata.new 0 t))) := by
  refine ⟨rfl, rfl, fun h lcm => ?_⟩
  simp [convert, WriteOpConverter.new, h]

/-- Witness for claim C6 at a concrete clock reading. -/
theorem claim_C6_witness :
    convert
      (WriteOpConverter.new
        (test_resolver (.ok none) (.ok none) (.ok 0) (.ok 0) (some 77)) true)
      (.ok none) (.New (([3, 4] : Bytes), (none : Option Unit))) false
      = .ok (.CreationWithMetadata [3, 4] (StateValueMetadata.new 0 77)) :=
  (claim_C6_new_slot_creation
    (test_resolver (.ok none) (.ok none) (.ok 0) (.ok 0) (some 77))
    Unit [3, 4] none 77).2.2 rfl false

/-- Claim C7: a failed resolver metadata lookup produces no write op and is
classified by path — the generic converter surfaces it as the fatal
`STORAGE_ERROR`, the aggregator conversion path as a speculative-abort
error. -/
theorem claim_C7_lookup_failure_paths (c : WriteOpConverter) (L : Type)
    (op : MoveStorageOp (Bytes × Option L)) (lcm : Bool) (f : Unit)
    (key : StateKey) (value : Nat) :
    convert c (.error f) op lcm = .error storage_read_failed_status
    ∧ (c.remote.get_aggregator_v1_state_value_metadata key = .error f →
        c.convert_aggregator_modification key value
          = .error aggregator_lookup_failed_status)
    ∧ storage_read_failed_status.status_code = .STORAGE_ERROR
    ∧ aggregator_lookup_failed_status.status_code
        = .SPECULATIVE_EXECUTION_ABORT_ERROR := by
  refine ⟨rfl, fun h => ?_, rfl, rfl⟩
  simp [WriteOpConverter.convert_aggregator_modification, h]

/-- Witness for claim C7 at a concrete failing aggregator lookup. -/
theorem claim_C7_witness :
    WriteOpConverter.convert_aggregator_modification
      ⟨test_resolver (.ok none) (.error ()) (.ok 0) (.ok 0) none, none⟩ 0 5
      = .error aggregator_lookup_failed_status :=
  (claim_C7_lookup_failure_paths
    ⟨test_resolver (.ok none) (.error ()) (.ok 0) (.ok 0) none, none⟩
    Unit .Delete false () 0 5).2.1 rfl

/-- Claim C8: converting an aggregator modification against a slot reported
as non-existent yields `Modification` of the serialized integer (not
`Creation`) when the metadata subsystem is disabled, and
`CreationWithMetadata` with the session template when it is enabled. -/
theorem claim_C8_aggregator_new_slot (r : AptosMoveResolver) (key : StateKey)
    (value : Nat)
    (h : r.get_aggregator_v1_state_value_metadata key = .ok none) :
    (WriteOpConverter.new r false).convert_aggregator_modification key value
        = .ok (.Modification (serialize value))
    ∧ ∀ t : Nat, r.fetch_current_time_microseconds = some t →
        (WriteOpConverter.new r true).convert_aggregator_modification key value
          = .ok (.CreationWithMetadata (serialize value)
              (StateValueMetadata.new 0 t)) := by
  constructor
  · simp [WriteOpConverter.convert_aggregator_modification,
      WriteOpConverter.new, h]
  · intro t ht
    simp [WriteOpConverter.convert_aggregator_modification,
      WriteOpConverter.new, h, ht]

/-- Witness for claim C8 at a concrete integer and clock reading. -/
theorem claim_C8_witness :
    (WriteOpConverter.new
        (test_resolver (.ok none) (.ok none) (.ok 0) (.ok 0) (some 9))
        false).convert_aggregator_modification 0 7
      = .ok (.Modification (serialize 7))
    ∧ (WriteOpConverter.new
        (test_resolver (.ok none) (.ok none) (.ok 0) (.ok 0) (some 9))
        true).convert_aggregator_modification 0 7
      = .ok (.CreationWithMetadata (serialize 7) (StateValueMetadata.new 0 9)) :=
  ⟨(claim_C8_aggregator_new_slot
      (test_resolver (.ok none) (.ok none) (.ok 0) (.ok 0) (some 9))
      0 7 rfl).1,
   (claim_C8_aggregator_new_slot
      (test_resolver (.ok none) (.ok none) (.ok 0) (.ok 0) (some 9))
      0 7 rfl).2 9 rfl⟩

/-- Claim C10: for every successful aggregator metadata lookup outcome and
every integer, `convert_aggregator_modification` returns `Ok` with a write
op that is a `Modification`, `ModificationWithMetadata` or
`CreationWithMetadata` — never an error and never a plain `Creation`,
`Deletion` or `DeletionWithMetadata`. -/
theorem claim_C10_aggregator_total (c : WriteOpConverter) (key : StateKey)
    (value : Nat) (md : Option (Option StateValueMetadata))
    (h : c.remote.get_aggregator_v1_state_value_metadata key = .ok md) :
    ∃ op, c.convert_aggregator_modification key value = .ok op
      ∧ ((∃ d, op = .Modification d)
         ∨ (∃ d m, op = .ModificationWithMetadata d m)
         ∨ (∃ d m, op = .CreationWithMetadata d m)) := by
  cases md with
  | none =>
    cases hn : c.new_slot_metadata with
    | none =>
      refine ⟨.Modification (serialize value), ?_, Or.inl ⟨_, rfl⟩⟩
      simp [WriteOpConverter.convert_aggregator_modification, h, hn]
    | some m =>
      refine ⟨.CreationWithMetadata (serialize value) m, ?_,
        Or.inr (Or.inr ⟨_, _, rfl⟩)⟩
      simp [WriteOpConverter.convert_aggregator_modification, h, hn]
  | some existing =>
    cases existing with
    | none =>
      refine ⟨.Modification (serialize value), ?_, Or.inl ⟨_, rfl⟩⟩
      simp [WriteOpConverter.convert_aggregator_modification, h]
    | some m =>
      refine ⟨.ModificationWithMetadata (serialize value) m, ?_,
        Or.inr (Or.inl ⟨_, _, rfl⟩)⟩
      simp [WriteOpConverter.convert_aggregator_modification, h]

/-- Claim C1: when converting a group batch succeeds, the returned
post-conversion aggregate size equals the pre-batch size minus the sum
over touched non-`New` tags of (previously recorded payload size +
serialized tag size), plus the sum over `New`/`Modify` tags of (new
payload length + serialized tag size); a `Delete` contributes only its
subtraction term. -/
theorem claim_C1_group_post_size (c : WriteOpConverter) (L : Type)
    (ser : StructTag → Except Unit Nat) (key : StateKey)
    (changes : List (StructTag × MoveStorageOp (Bytes × Option L)))
    (tsz osz : StructTag → Nat) (pre : Nat) (gw : GroupWrite L)
    (hpre : c.remote.resource_group_size key = .ok pre)
    (hser : ∀ e ∈ changes, ser e.1 = .ok (tsz e.1))
    (hosz : ∀ e ∈ changes,
      c.remote.resource_size_in_group key e.1 = .ok (osz e.1))
    (h : c.convert_resource_group_v1 ser key changes = some (.ok gw)) :
    (gw.post_group_size : Int) = (pre : Int)
      - (changes.map (spec_sub_term tsz osz)).sum
      + (changes.map (spec_add_term tsz)).sum := by
  simp only [WriteOpConverter.convert_resource_group_v1, hpre] at h
  split at h
  · exact absurd h (by simp)
  · exact absurd h (by simp)
  · rename_i post ops heq
    have hsize := convert_group_changes_ok_size c.remote ser key tsz osz
      changes pre post ops hser hosz heq
    split at h
    · exact absurd h (by simp)
    · simp only [Option.some.injEq, Except.ok.injEq] at h
      subst h
      exact hsize

/-- Witness for claim C1 at a concrete batch: pre-size 10, one `Modify` of
a 2-byte payload over a tag of serialized size 3 whose previous payload
size was 4, giving post-size 10 − (4+3) + (2+3) = 8. -/
theorem claim_C1_witness :
    ((⟨WriteOp.Modification [], 8, [(1, (WriteOp.Modification [7, 7], none))]⟩ :
        GroupWrite Unit).post_group_size : Int)
      = ((10 : Nat) : Int)
        - (([(1, MoveStorageOp.Modify (([7, 7] : Bytes), (none : Option Unit)))].map
            (spec_sub_term (fun _ => 3) (fun _ => 4))).sum)
        + (([(1, MoveStorageOp.Modify (([7, 7] : Bytes), (none : Option Unit)))].map
            (spec_add_term (fun _ => 3))).sum) :=
  claim_C1_group_post_size
    ⟨test_resolver (.ok (some none)) (.ok none) (.ok 10) (.ok 4) none, none⟩
    Unit (fun _ => .ok 3) 0
    [(1, MoveStorageOp.Modify (([7, 7] : Bytes), (none : Option Unit)))]
    (fun _ => 3) (fun _ => 4) 10
    ⟨WriteOp.Modification [], 8, [(1, (WriteOp.Modification [7, 7], none))]⟩
    rfl (fun _ _ => rfl) (fun _ _ => rfl) rfl

/-- Claim C3 (counterexample): at this input an arithmetic overflow occurs
inside the fold (the unchecked `u64` sum `old_size + tag_size` is
`2^64 - 1 + 1`), yet `convert_resource_group_v1` does not return an
explicit error: the computation panics (modelled as `none`). -/
theorem claim_C3_counterexample :
    overflow_case_converter.convert_resource_group_v1 (fun _ => .ok 1) 0
        overflow_case_changes = none
    ∧ ¬ ∃ e, overflow_case_converter.convert_resource_group_v1 (fun _ => .ok 1)
        0 overflow_case_changes = some (.error e) := by
  have h0 : overflow_case_converter.convert_resource_group_v1 (fun _ => .ok 1)
      0 overflow_case_changes = none := by rfl
  refine ⟨h0, ?_⟩
  rintro ⟨e, h⟩
  rw [h0] at h
  exact Option.noConfusion h

/-- Claim C3 (amended): provided every resolver query succeeds and each
entry's unchecked component sums (`old payload size + tag size` and
`new payload length + tag size`, which the source adds with plain `u64`
additions) fit in `u64`, `convert_resource_group_v1` never panics and
every error it returns is a speculative-abort error — in particular the
running-total checked subtraction and addition surface underflow/overflow
as the explicit speculative-abort group-size error, never as a silent
wraparound. -/
theorem claim_C3_checked_arithmetic (c : WriteOpConverter) (L : Type)
    (ser : StructTag → Except Unit Nat) (key : StateKey)
    (changes : List (StructTag × MoveStorageOp (Bytes × Option L)))
    (tsz osz : StructTag → Nat) (pre : Nat)
    (md : Option (Option StateValueMetadata))
    (hpre : c.remote.resource_group_size key = .ok pre)
    (hmd : c.remote.get_resource_state_value_metadata key = .ok md)
    (hser : ∀ e ∈ changes, ser e.1 = .ok (tsz e.1))
    (hosz : ∀ e ∈ changes,
      c.remote.resource_size_in_group key e.1 = .ok (osz e.1))
    (hcomp : ∀ e ∈ changes, no_component_overflow tsz osz e) :
    (∃ r, c.convert_resource_group_v1 ser key changes = some r)
    ∧ ∀ e : VMStatus,
        c.convert_resource_group_v1 ser key changes = some (.error e) →
        e.status_code = .SPECULATIVE_EXECUTION_ABORT_ERROR := by
  rcases convert_group_changes_classified c.remote ser key tsz osz changes pre
      hser hosz hcomp with hf | ⟨post, ops, hf⟩
  · constructor
    · exact ⟨.error group_size_arithmetics_error,
        by simp [WriteOpConverter.convert_resource_group_v1, hpre, hf]⟩
    · intro e he
      simp [WriteOpConverter.convert_resource_group_v1, hpre, hf] at he
      subst he
      rfl
  · cases hconv : convert c (c.remote.get_resource_state_value_metadata key)
        (if post = 0 then .Delete
         else if pre = 0 then .New (([] : Bytes), (none : Option L))
         else .Modify (([] : Bytes), (none : Option L))) false with
    | error e2 =>
      have hconv2 := hconv
      rw [hmd] at hconv2
      have hc := convert_ok_lookup_error_spec c md _ false e2 hconv2
      constructor
      · exact ⟨.error e2,
          by simp [WriteOpConverter.convert_resource_group_v1, hpre, hf, hconv]⟩
      · intro e he
        simp [WriteOpConverter.convert_resource_group_v1, hpre, hf, hconv]
          at he
        subst he
        exact hc
    | ok w =>
      constructor
      · exact ⟨.ok ⟨w, post, ops⟩,
          by simp [WriteOpConverter.convert_resource_group_v1, hpre, hf, hconv]⟩
      · intro e he
        simp [WriteOpConverter.convert_resource_group_v1, hpre, hf, hconv] at he

/-- Witness for claim C3 (amended) at a concrete batch whose running total
underflows: pre-size 0, a `Delete` whose previous payload size is 5 and
tag size 1. -/
theorem claim_C3_witness :
    (∃ r, WriteOpConverter.convert_resource_group_v1
      ⟨test_resolver (.ok (some none)) (.ok none) (.ok 0) (.ok 5) none, none⟩
      (fun _ => .ok 1) 0
      [(0, (MoveStorageOp.Delete : MoveStorageOp (Bytes × Option Unit)))]
      = some r)
    ∧ ∀ e : VMStatus,
        WriteOpConverter.convert_resource_group_v1
          ⟨test_resolver (.ok (some none)) (.ok none) (.ok 0) (.ok 5) none,
            none⟩
          (fun _ => .ok 1) 0
          [(0, (MoveStorageOp.Delete : MoveStorageOp (Bytes × Option Unit)))]
          = some (.error e) →
        e.status_code = .SPECULATIVE_EXECUTION_ABORT_ERROR :=
  claim_C3_checked_arithmetic
    ⟨test_resolver (.ok (some none)) (.ok none) (.ok 0) (.ok 5) none, none⟩
    Unit (fun _ => .ok 1) 0
    [(0, (MoveStorageOp.Delete : MoveStorageOp (Bytes × Option Unit)))]
    (fun _ => 1) (fun _ => 5) 0 (some none)
    rfl rfl (fun _ _ => rfl) (fun _ _ => rfl)
    (fun e he => by
      simp only [List.mem_singleton] at he
      subst he
      exact (by decide : 5 + 1 < U64_LIMIT))

/-- Claim C4: after a successful fold, the synthetic slot-level effect kind
is decided purely from the size trajectory (post-size 0 → `Delete`-shaped;
pre-size 0 and post-size nonzero → `New`-shaped; otherwise
`Modify`-shaped), with an empty byte payload, and is fed through the
`convert` state machine — enumerated here across all combinations of
pre-size zero/nonzero, post-size zero/nonzero, and slot metadata
non-existent / existing without metadata / existing with metadata. -/
theorem claim_C4_synthetic_kind (c : WriteOpConverter) (L : Type)
    (ser : StructTag → Except Unit Nat) (key : StateKey)
    (changes : List (StructTag × MoveStorageOp (Bytes × Option L)))
    (pre post : Nat) (ops : List (StructTag × WriteOp × Option L))
    (md : Option (Option StateValueMetadata))
    (hpre : c.remote.resource_group_size key = .ok pre)
    (hmd : c.remote.get_resource_state_value_metadata key = .ok md)
    (hfold : convert_group_changes c.remote ser key changes pre
      = some (.ok (post, ops))) :
    c.convert_resource_group_v1 ser key changes =
      some (
        if post = 0 then
          match md with
          | none => .error updating_non_existent_status
          | some none => .ok ⟨WriteOp.Deletion, post, ops⟩
          | some (some m) => .ok ⟨WriteOp.DeletionWithMetadata m, post, ops⟩
        else if pre = 0 then
          match md, c.new_slot_metadata with
          | none, none => .ok ⟨WriteOp.Creation [], post, ops⟩
          | none, some m => .ok ⟨WriteOp.CreationWithMetadata [] m, post, ops⟩
          | some _, _ => .error recreating_existing_status
        else
          match md with
          | none => .error updating_non_existent_status
          | some none => .ok ⟨WriteOp.Modification [], post, ops⟩
          | some (some m) =>
            .ok ⟨WriteOp.ModificationWithMetadata [] m, post, ops⟩) := by
  simp only [WriteOpConverter.convert_resource_group_v1, hpre, hfold, hmd]
  by_cases hpost : post = 0
  · subst hpost
    cases md with
    | none => simp [convert]
    | some existing => cases existing <;> simp [convert]
  · by_cases hpre0 : pre = 0
    · subst hpre0
      cases md with
      | none =>
        cases hn : c.new_slot_metadata with
        | none => simp [convert, hn, hpost]
        | some m => simp [convert, hn, hpost]
      | some existing => cases existing <;> simp [convert, hpost]
    · cases md with
      | none => simp [convert, hpost, hpre0]
      | some existing => cases existing <;> simp [convert, hpost, hpre0]

/-- Witness for claim C4: empty batch against an existing slot with
metadata, pre-size and post-size both 3, yielding the
`Modify`-shaped synthetic op with the metadata inherited. -/
theorem claim_C4_witness :
    WriteOpConverter.convert_resource_group_v1
      ⟨test_resolver (.ok (some (some ⟨5, 9⟩))) (.ok none) (.ok 3) (.ok 0)
        none, none⟩
      (fun _ => .ok 1) 0
      ([] : List (StructTag × MoveStorageOp (Bytes × Option Unit)))
      = some (.ok ⟨WriteOp.ModificationWithMetadata [] ⟨5, 9⟩, 3, []⟩) :=
  claim_C4_synthetic_kind
    ⟨test_resolver (.ok (some (some ⟨5, 9⟩))) (.ok none) (.ok 3) (.ok 0)
      none, none⟩
    Unit (fun _ => .ok 1) 0 [] 3 3 [] (some (some ⟨5, 9⟩)) rfl rfl rfl

/-- Claim C9: converting an empty group batch against an existing group of
aggregate size S succeeds, returns post-size S unchanged, and produces an
empty per-tag operation mapping. -/
theorem claim_C9_empty_batch (c : WriteOpConverter) (L : Type)
    (ser : StructTag → Except Unit Nat) (key : StateKey) (S : Nat)
    (mk : Option StateValueMetadata)
    (hmd : c.remote.get_resource_state_value_metadata key = .ok (some mk))
    (hpre : c.remote.resource_group_size key = .ok S) :
    ∃ w, c.convert_resource_group_v1 ser key
      ([] : List (StructTag × MoveStorageOp (Bytes × Option L)))
      = some (.ok ⟨w, S, []⟩) := by
  by_cases hS : S = 0
  · cases mk with
    | none =>
      exact ⟨.Deletion, by simp [WriteOpConverter.convert_resource_group_v1,
        hpre, hmd, convert_group_changes, hS, convert]⟩
    | some m =>
      exact ⟨.DeletionWithMetadata m,
        by simp [WriteOpConverter.convert_resource_group_v1, hpre, hmd,
          convert_group_changes, hS, convert]⟩
  · cases mk with
    | none =>
      exact ⟨.Modification [], by simp [WriteOpConverter.convert_resource_group_v1,
        hpre, hmd, convert_group_changes, hS, convert]⟩
    | some m =>
      exact ⟨.ModificationWithMetadata [] m,
        by simp [WriteOpConverter.convert_resource_group_v1, hpre, hmd,
          convert_group_changes, hS, convert]⟩

/-- Witness for claim C9 at a concrete group of size 5 with metadata. -/
theorem claim_C9_witness :
    ∃ w, WriteOpConverter.convert_resource_group_v1
      ⟨test_resolver (.ok (some (some ⟨2, 3⟩))) (.ok none) (.ok 5) (.ok 0)
        none, none⟩
      (fun _ => .ok 1) 0
      ([] : List (StructTag × MoveStorageOp (Bytes × Option Unit)))
      = some (.ok ⟨w, 5, []⟩) :=
  claim_C9_empty_batch
    ⟨test_resolver (.ok (some (some ⟨2, 3⟩))) (.ok none) (.ok 5) (.ok 0)
      none, none⟩
    Unit (fun _ => .ok 1) 0 5 (some ⟨2, 3⟩) rfl rfl

/-- Witness for claim C10 at a concrete lookup outcome with metadata. -/
theorem claim_C10_witness :
    ∃ op,
      WriteOpConverter.convert_aggregator_modification
        ⟨test_resolver (.ok none) (.ok (some (some ⟨1, 2⟩))) (.ok 0) (.ok 0)
          none, none⟩ 0 3 = .ok op
      ∧ ((∃ d, op = .Modification d)
         ∨ (∃ d m, op = .ModificationWithMetadata d m)
         ∨ (∃ d m, op = .CreationWithMetadata d m)) :=
  claim_C10_aggregator_total
    ⟨test_resolver (.ok none) (.ok (some (some ⟨1, 2⟩))) (.ok 0) (.ok 0)
      none, none⟩ 0 3 (some (some ⟨1, 2⟩)) rfl

end AptosWriteOp
